import Mathlib

/-!
Verification of the core gradient-transformation abstraction of
`optax/_src/base.py`: the `EmptyState` container, the
`GradientTransformation` pair, and the primitive transformations
`identity`, `set_to_zero` and `stateless`.

Structured values ("pytrees") and the external collaborators
`jax.tree_map` / `jnp.zeros_like` are modelled from the spec (section 6):
a structure-preserving map over one or two structurally compatible trees,
and a same-shape zero array constructor. A leaf is modelled as a
one-dimensional integer array (`List Int`); its shape is its length.
A raised structural-mismatch error is modelled as `none`.
-/

namespace Optax

/-- Modelled from the spec: a numeric-array leaf of a structured value,
taken to be a one-dimensional integer array whose shape is its length. -/
abbrev Leaf := List Int

mutual

/-- Modelled from the spec: a structured value (pytree) is an arbitrarily
nested composite of containers whose leaves are numeric arrays. -/
inductive PyTree (α : Type) : Type where
  | leaf : α → PyTree α
  | node : Forest α → PyTree α

/-- The (possibly empty) sequence of children of a pytree container node. -/
inductive Forest (α : Type) : Type where
  | nil : Forest α
  | cons : PyTree α → Forest α → Forest α

end

variable {α β γ : Type}

mutual

/-- Modelled from the spec: two structured values are structurally compatible
when they have identical nesting of containers, ignoring leaf values. -/
def sameStructure : PyTree α → PyTree β → Bool
  | .leaf _, .leaf _ => true
  | .node c1, .node c2 => sameStructureF c1 c2
  | _, _ => false

/-- Structural compatibility of two forests of children. -/
def sameStructureF : Forest α → Forest β → Bool
  | .nil, .nil => true
  | .cons t1 c1, .cons t2 c2 => sameStructure t1 t2 && sameStructureF c1 c2
  | _, _ => false

end

mutual

/-- Modelled from the spec: the one-tree form of `jax.tree_map`, a
structure-preserving map applying a function to every leaf. -/
def tree_map (f : α → β) : PyTree α → PyTree β
  | .leaf a => .leaf (f a)
  | .node c => .node (forest_map f c)

/-- `tree_map` on a forest of children. -/
def forest_map (f : α → β) : Forest α → Forest β
  | .nil => .nil
  | .cons t c => .cons (tree_map f t) (forest_map f c)

end

mutual

/-- Modelled from the spec: the two-tree form of `jax.tree_map`, applying a
function elementwise across matching positions of two structurally compatible
trees; a structural mismatch raises, modelled by `none`. -/
def tree_map2 (f : α → β → γ) : PyTree α → PyTree β → Option (PyTree γ)
  | .leaf a, .leaf b => some (.leaf (f a b))
  | .node c1, .node c2 => (forest_map2 f c1 c2).map .node
  | _, _ => none

/-- `tree_map2` on forests of children. -/
def forest_map2 (f : α → β → γ) : Forest α → Forest β → Option (Forest γ)
  | .nil, .nil => some .nil
  | .cons t1 c1, .cons t2 c2 =>
    match tree_map2 f t1 t2, forest_map2 f c1 c2 with
    | some t, some c => some (.cons t c)
    | _, _ => none
  | _, _ => none

end

mutual

/-- The leaves of a pytree, in left-to-right order. -/
def PyTree.leaves : PyTree α → List α
  | .leaf a => [a]
  | .node c => Forest.leaves c

/-- The leaves of a forest, in left-to-right order. -/
def Forest.leaves : Forest α → List α
  | .nil => []
  | .cons t c => t.leaves ++ Forest.leaves c

end

/-- An empty state for the simplest stateless transformations:
`EmptyState` in `base.py`, a named tuple with no fields. -/
structure EmptyState : Type where

/-- Optimizer state (`OptState` in `base.py`): an arbitrary nest of arrays;
the zero-field empty record is one possible state. -/
inductive OptState : Type where
  | empty : EmptyState → OptState
  | ofTree : PyTree Leaf → OptState

/-- Parameters are arbitrary nests of arrays (`Params` in `base.py`). -/
abbrev Params := PyTree Leaf

/-- Gradient updates are of the same type as parameters
(`Updates` in `base.py`). -/
abbrev Updates := Params

/-- A pair of pure functions implementing a gradient transformation
(`GradientTransformation` in `base.py`). The update function returns
`none` when the underlying structured-value map raises a
structural-mismatch error. -/
structure GradientTransformation : Type where
  init : Params → OptState
  update : Updates → OptState → Option Params → Option (Updates × OptState)

/-- `identity` from `base.py`: `init` discards its input and returns
`EmptyState()`; `update` deletes `params` and returns `(updates, state)`. -/
def identity : GradientTransformation where
  init := fun _ => OptState.empty ⟨⟩
  update := fun updates state _params => some (updates, state)

/-- Modelled from the spec: `jnp.zeros_like` produces an array of the same
shape as its input with every element the zero of the element type. -/
def zeros_like (l : Leaf) : Leaf := l.map (fun _ => 0)

/-- `set_to_zero` from `base.py`: `init` discards its input and returns
`EmptyState()`; `update` deletes `params` and returns
`(jax.tree_map(jnp.zeros_like, updates), state)`. -/
def set_to_zero : GradientTransformation where
  init := fun _ => OptState.empty ⟨⟩
  update := fun updates state _params => some (tree_map zeros_like updates, state)

/-- The type of the update-like function wrapped by `stateless`. The Python
function is duck-typed: with `on_leaves=False` it is applied to whole
updates/params pytrees, with `on_leaves=True` to single leaves (where the
params leaf may be `None`). -/
def FType : Bool → Type
  | false => Updates → Option Params → Updates
  | true => Leaf → Option Leaf → Leaf

/-- `stateless` from `base.py`: wraps an update-like function `f` into a
`GradientTransformation`. `init` returns `EmptyState()`. `update` returns
`(f(updates, params), state)` when `on_leaves` is false; otherwise it maps
`f` over the leaves of `updates` and `params` (passing `None` for the params
leaf when `params` is `None`) and echoes `state`. -/
def stateless (on_leaves : Bool) (f : FType on_leaves) : GradientTransformation where
  init := fun _ => OptState.empty ⟨⟩
  update := fun updates state params =>
    match on_leaves, f with
    | false, g => some (g updates params, state)
    | true, g =>
      match params with
      | some p => (tree_map2 (fun a b => g a (some b)) updates p).map (fun u => (u, state))
      | none => some (tree_map (fun u => g u none) updates, state)

/-- The shape skeleton of a structured value: every leaf replaced by its
length. `set_to_zero` only ever reads this much of its input. -/
def treeShape (t : PyTree Leaf) : PyTree Nat := tree_map List.length t

/-- A concrete two-leaf structured value used to instantiate theorems. -/
def exTree : PyTree Leaf := .node (.cons (.leaf [1]) (.cons (.leaf [2, 3]) .nil))

/-- A concrete parameter tree structurally compatible with `exTree`. -/
def exParams : PyTree Leaf := .node (.cons (.leaf [10]) (.cons (.leaf [20, 30]) .nil))

/-- Elementwise increment as a leaf-mode update-like function. -/
def incrLeaf : FType true := fun l _ => l.map (fun x => x + 1)

/-- Elementwise increment as a whole-tree update-like function. -/
def incrTree : FType false := fun u _ => tree_map (fun l => l.map (fun x => x + 1)) u

/-- A whole-tree update-like function that does not preserve structure. -/
def collapseTree : FType false := fun _ _ => PyTree.leaf []

mutual

theorem tree_map_leaves (f : α → β) : (t : PyTree α) →
    (tree_map f t).leaves = t.leaves.map f
  | .leaf _ => rfl
  | .node c => forest_map_leaves f c

theorem forest_map_leaves (f : α → β) : (c : Forest α) →
    Forest.leaves (forest_map f c) = (Forest.leaves c).map f
  | .nil => rfl
  | .cons t c => by
    show (tree_map f t).leaves ++ Forest.leaves (forest_map f c)
        = (t.leaves ++ Forest.leaves c).map f
    rw [tree_map_leaves f t, forest_map_leaves f c, List.map_append]

end

mutual

theorem tree_map_sameStructure (f : α → β) : (t : PyTree α) →
    sameStructure (tree_map f t) t = true
  | .leaf _ => rfl
  | .node c => forest_map_sameStructure f c

theorem forest_map_sameStructure (f : α → β) : (c : Forest α) →
    sameStructureF (forest_map f c) c = true
  | .nil => rfl
  | .cons t c => by
    show (sameStructure (tree_map f t) t && sameStructureF (forest_map f c) c) = true
    rw [tree_map_sameStructure f t, forest_map_sameStructure f c]
    rfl

end

mutual

theorem sameStructure_leaves_length : (a : PyTree α) → (b : PyTree β) →
    sameStructure a b = true → a.leaves.length = b.leaves.length
  | .leaf _, .leaf _, _ => rfl
  | .node c1, .node c2, h => sameStructureF_leaves_length c1 c2 h
  | .leaf _, .node _, h => by simp [sameStructure] at h
  | .node _, .leaf _, h => by simp [sameStructure] at h

theorem sameStructureF_leaves_length : (c1 : Forest α) → (c2 : Forest β) →
    sameStructureF c1 c2 = true → (Forest.leaves c1).length = (Forest.leaves c2).length
  | .nil, .nil, _ => rfl
  | .cons t1 c1, .cons t2 c2, h => by
    have h2 : sameStructure t1 t2 = true ∧ sameStructureF c1 c2 = true := by
      simpa [sameStructureF, Bool.and_eq_true] using h
    show (t1.leaves ++ Forest.leaves c1).length = (t2.leaves ++ Forest.leaves c2).length
    rw [List.length_append, List.length_append,
      sameStructure_leaves_length t1 t2 h2.1, sameStructureF_leaves_length c1 c2 h2.2]
  | .nil, .cons _ _, h => by simp [sameStructureF] at h
  | .cons _ _, .nil, h => by simp [sameStructureF] at h

end

mutual

theorem tree_map2_sound (f : α → β → γ) : (a : PyTree α) → (b : PyTree β) →
    sameStructure a b = true →
    ∃ r, tree_map2 f a b = some r ∧ sameStructure r a = true ∧
      r.leaves = List.zipWith f a.leaves b.leaves
  | .leaf x, .leaf y, _ => ⟨.leaf (f x y), rfl, rfl, rfl⟩
  | .node c1, .node c2, h => by
    obtain ⟨r, hr, hs, hl⟩ := forest_map2_sound f c1 c2 h
    exact ⟨.node r, by simp [tree_map2, hr], hs, hl⟩
  | .leaf _, .node _, h => by simp [sameStructure] at h
  | .node _, .leaf _, h => by simp [sameStructure] at h

theorem forest_map2_sound (f : α → β → γ) : (c1 : Forest α) → (c2 : Forest β) →
    sameStructureF c1 c2 = true →
    ∃ r, forest_map2 f c1 c2 = some r ∧ sameStructureF r c1 = true ∧
      Forest.leaves r = List.zipWith f (Forest.leaves c1) (Forest.leaves c2)
  | .nil, .nil, _ => ⟨.nil, rfl, rfl, rfl⟩
  | .cons t1 c1, .cons t2 c2, h => by
    have h2 : sameStructure t1 t2 = true ∧ sameStructureF c1 c2 = true := by
      simpa [sameStructureF, Bool.and_eq_true] using h
    obtain ⟨rt, hrt, hst, hlt⟩ := tree_map2_sound f t1 t2 h2.1
    obtain ⟨rc, hrc, hsc, hlc⟩ := forest_map2_sound f c1 c2 h2.2
    refine ⟨.cons rt rc, ?_, ?_, ?_⟩
    · simp [forest_map2, hrt, hrc]
    · show (sameStructure rt t1 && sameStructureF rc c1) = true
      rw [hst, hsc]
      rfl
    · show rt.leaves ++ Forest.leaves rc
          = List.zipWith f (t1.leaves ++ Forest.leaves c1) (t2.leaves ++ Forest.leaves c2)
      rw [hlt, hlc, List.zipWith_append _ _ _ _ _ (sameStructure_leaves_length t1 t2 h2.1)]
  | .nil, .cons _ _, h => by simp [sameStructureF] at h
  | .cons _ _, .nil, h => by simp [sameStructureF] at h

end

mutual

theorem tree_map2_structure (f : α → β → γ) : (a : PyTree α) → (b : PyTree β) →
    (r : PyTree γ) → tree_map2 f a b = some r → sameStructure r a = true
  | .leaf x, .leaf y, r, h => by
    obtain rfl : PyTree.leaf (f x y) = r := Option.some.inj h
    rfl
  | .node c1, .node c2, r, h => by
    cases hfc : forest_map2 f c1 c2 with
    | none => rw [show tree_map2 f (PyTree.node c1) (PyTree.node c2)
        = (forest_map2 f c1 c2).map PyTree.node from rfl, hfc] at h; exact Option.noConfusion h
    | some c =>
      rw [show tree_map2 f (PyTree.node c1) (PyTree.node c2)
        = (forest_map2 f c1 c2).map PyTree.node from rfl, hfc] at h
      obtain rfl : PyTree.node c = r := Option.some.inj h
      exact forest_map2_structure f c1 c2 c hfc
  | .leaf _, .node _, r, h => by simp [tree_map2] at h
  | .node _, .leaf _, r, h => by simp [tree_map2] at h

theorem forest_map2_structure (f : α → β → γ) : (c1 : Forest α) → (c2 : Forest β) →
    (r : Forest γ) → forest_map2 f c1 c2 = some r → sameStructureF r c1 = true
  | .nil, .nil, r, h => by
    obtain rfl : Forest.nil = r := Option.some.inj h
    rfl
  | .cons t1 c1, .cons t2 c2, r, h => by
    cases hft : tree_map2 f t1 t2 with
    | none => simp [forest_map2, hft] at h
    | some t =>
      cases hfc : forest_map2 f c1 c2 with
      | none => simp [forest_map2, hft, hfc] at h
      | some c =>
        have h3 : some (Forest.cons t c) = some r := by
          rw [← h]; simp [forest_map2, hft, hfc]
        obtain rfl : Forest.cons t c = r := Option.some.inj h3
        show (sameStructure t t1 && sameStructureF c c1) = true
        rw [tree_map2_structure f t1 t2 t hft, forest_map2_structure f c1 c2 c hfc]
        rfl
  | .nil, .cons _ _, r, h => by simp [forest_map2] at h
  | .cons _ _, .nil, r, h => by simp [forest_map2] at h

end

theorem zeros_like_eq (l : Leaf) : zeros_like l = List.replicate l.length 0 := by
  induction l with
  | nil => rfl
  | cons x xs ih =>
    show (0 : Int) :: zeros_like xs = List.replicate (xs.length + 1) 0
    rw [ih, List.replicate_succ]

mutual

theorem tree_map_map (f : β → γ) (g : α → β) : (t : PyTree α) →
    tree_map f (tree_map g t) = tree_map (fun a => f (g a)) t
  | .leaf _ => rfl
  | .node c => congrArg PyTree.node (forest_map_map f g c)

theorem forest_map_map (f : β → γ) (g : α → β) : (c : Forest α) →
    forest_map f (forest_map g c) = forest_map (fun a => f (g a)) c
  | .nil => rfl
  | .cons t c => by
    show Forest.cons (tree_map f (tree_map g t)) (forest_map f (forest_map g c))
        = Forest.cons (tree_map (fun a => f (g a)) t) (forest_map (fun a => f (g a)) c)
    rw [tree_map_map f g t, forest_map_map f g c]

end

theorem tree_map_zeros_like_shape (u : PyTree Leaf) :
    tree_map zeros_like u = tree_map (fun n => List.replicate n 0) (treeShape u) := by
  rw [treeShape, tree_map_map]
  have h : zeros_like = fun l : Leaf => List.replicate l.length 0 := funext zeros_like_eq
  rw [h]

mutual

theorem sameStructure_refl : (t : PyTree α) → sameStructure t t = true
  | .leaf _ => rfl
  | .node c => sameStructureF_refl c

theorem sameStructureF_refl : (c : Forest α) → sameStructureF c c = true
  | .nil => rfl
  | .cons t c => by
    show (sameStructure t t && sameStructureF c c) = true
    rw [sameStructure_refl t, sameStructureF_refl c]
    rfl

end

/-- C1: for every updates value and every state value,
`identity().update(updates, state, params)` returns exactly the pair
`(updates, state)`, unchanged, for any value of the optional params
argument. -/
theorem identity_update_law (u : Updates) (s : OptState) (p : Option Params) :
    identity.update u s p = some (u, s) := rfl

/-- C2: for every updates and state (and any optional params),
`set_to_zero().update(updates, state)` returns a new updates value with the
same structure as the input in which every leaf is the zero array of that
leaf's shape, and returns the input state unchanged. -/
theorem set_to_zero_update_law (u : Updates) (s : OptState) (p : Option Params) :
    ∃ r, set_to_zero.update u s p = some (r, s) ∧ sameStructure r u = true ∧
      r.leaves = u.leaves.map (fun l => List.replicate l.length 0) := by
  refine ⟨tree_map zeros_like u, rfl, tree_map_sameStructure zeros_like u, ?_⟩
  rw [tree_map_leaves]
  have h : zeros_like = fun l : Leaf => List.replicate l.length 0 := funext zeros_like_eq
  rw [h]

/-- C3: with `on_leaves` false, `stateless(f).update(updates, state, params)`
applies `f` once to the entire updates value and the entire optional params
value (possibly `None`) and returns the pair `(f(updates, params), state)`. -/
theorem stateless_whole_tree_law (f : FType false) (u : Updates) (s : OptState)
    (p : Option Params) :
    (stateless false f).update u s p = some (f u p, s) := rfl

/-- C4: with `on_leaves` true, stateless applies `f` elementwise to each
corresponding pair of leaves of updates and params, structure-preservingly;
with `params = None` each leaf of updates is paired with `None`; the input
state is returned as the second component in both cases. -/
theorem stateless_leaf_mode_law (f : FType true) (u : Updates) (s : OptState) :
    (∃ r, (stateless true f).update u s none = some (r, s) ∧ sameStructure r u = true ∧
      r.leaves = u.leaves.map (fun l => f l none)) ∧
    ∀ p : Params, sameStructure u p = true →
      ∃ r, (stateless true f).update u s (some p) = some (r, s) ∧ sameStructure r u = true ∧
        r.leaves = List.zipWith (fun a b => f a (some b)) u.leaves p.leaves := by
  constructor
  · exact ⟨tree_map (fun l => f l none) u, rfl, tree_map_sameStructure _ u,
      by rw [tree_map_leaves]⟩
  · intro p hp
    obtain ⟨r, hr, hs, hl⟩ := tree_map2_sound (fun a b => f a (some b)) u p hp
    refine ⟨r, ?_, hs, hl⟩
    show (tree_map2 (fun a b => f a (some b)) u p).map (fun v => (v, s)) = some (r, s)
    rw [hr]
    rfl

/-- C4 witness: elementwise increment over concrete structurally compatible
two-leaf trees. -/
theorem stateless_leaf_mode_law_witness :
    sameStructure exTree exParams = true ∧
    ∃ r, (stateless true incrLeaf).update exTree (OptState.empty ⟨⟩) (some exParams)
        = some (r, OptState.empty ⟨⟩) ∧ sameStructure r exTree = true ∧
      r.leaves = List.zipWith (fun a b => incrLeaf a (some b)) exTree.leaves exParams.leaves :=
  ⟨by decide,
    (stateless_leaf_mode_law incrLeaf exTree (OptState.empty ⟨⟩)).2 exParams (by decide)⟩

/-- C5 as stated is false: with `on_leaves = false` and a wrapped `f` that
does not preserve structure, `stateless(f).update` returns new updates whose
structure differs from the input updates. -/
theorem structure_preservation_counterexample :
    (stateless false collapseTree).update (PyTree.node Forest.nil) (OptState.empty ⟨⟩) none
      = some (PyTree.leaf [], OptState.empty ⟨⟩) ∧
    sameStructure (PyTree.leaf ([] : Leaf)) (PyTree.node (Forest.nil (α := Leaf))) = false :=
  ⟨rfl, rfl⟩

/-- C5 amended: structure preservation holds unconditionally for identity,
set_to_zero, and leaf-mode stateless whenever the call succeeds, and for
whole-tree stateless provided the wrapped `f` itself preserves structure. -/
theorem structure_preservation (u : Updates) (s : OptState) (p : Option Params) :
    (∀ r s2, identity.update u s p = some (r, s2) → sameStructure r u = true) ∧
    (∀ r s2, set_to_zero.update u s p = some (r, s2) → sameStructure r u = true) ∧
    (∀ (g : FType true) r s2, (stateless true g).update u s p = some (r, s2) →
      sameStructure r u = true) ∧
    (∀ g : FType false, (∀ v q, sameStructure (g v q) v = true) →
      ∀ r s2, (stateless false g).update u s p = some (r, s2) → sameStructure r u = true) := by
  refine ⟨?_, ?_, ?_, ?_⟩
  · intro r s2 h
    have h2 : u = r ∧ s = s2 := by simpa using Option.some.inj h
    obtain ⟨rfl, rfl⟩ := h2
    exact sameStructure_refl u
  · intro r s2 h
    have h2 : tree_map zeros_like u = r ∧ s = s2 := by simpa using Option.some.inj h
    obtain ⟨rfl, rfl⟩ := h2
    exact tree_map_sameStructure zeros_like u
  · intro g r s2 h
    cases p with
    | none =>
      have h2 : tree_map (fun l => g l none) u = r ∧ s = s2 := by
        simpa using Option.some.inj h
      obtain ⟨rfl, rfl⟩ := h2
      exact tree_map_sameStructure _ u
    | some pp =>
      cases hm : tree_map2 (fun a b => g a (some b)) u pp with
      | none =>
        rw [show (stateless true g).update u s (some pp)
            = (tree_map2 (fun a b => g a (some b)) u pp).map (fun v => (v, s)) from rfl,
          hm] at h
        exact Option.noConfusion h
      | some t =>
        rw [show (stateless true g).update u s (some pp)
            = (tree_map2 (fun a b => g a (some b)) u pp).map (fun v => (v, s)) from rfl,
          hm] at h
        have h2 : t = r ∧ s = s2 := by simpa using Option.some.inj h
        obtain ⟨rfl, rfl⟩ := h2
        exact tree_map2_structure _ u pp t hm
  · intro g hg r s2 h
    have h2 : g u p = r ∧ s = s2 := by simpa using Option.some.inj h
    obtain ⟨rfl, rfl⟩ := h2
    exact hg u p

/-- C5 amended witness: set_to_zero preserves the structure of a concrete
two-leaf tree. -/
theorem structure_preservation_witness :
    sameStructure (tree_map zeros_like exTree) exTree = true :=
  (structure_preservation exTree (OptState.empty ⟨⟩) none).2.1
    (tree_map zeros_like exTree) (OptState.empty ⟨⟩) rfl

/-- C6: the init functions of identity, set_to_zero, and stateless (either
mode, any wrapped function) return `EmptyState()` regardless of input. -/
theorem init_returns_empty_state (x y z : Params) (b : Bool) (f : FType b) :
    identity.init x = OptState.empty ⟨⟩ ∧ set_to_zero.init y = OptState.empty ⟨⟩ ∧
      (stateless b f).init z = OptState.empty ⟨⟩ :=
  ⟨rfl, rfl, rfl⟩

/-- C7: stateless's update echoes the state argument back unchanged as the
second component whenever it returns, in both modes and for any params; and
the state a stateless transformation ever produces from init is always
`EmptyState()`. -/
theorem stateless_state_echo : (b : Bool) → (f : FType b) → (u : Updates) → (s : OptState) →
    (p : Option Params) →
    (∀ r s2, (stateless b f).update u s p = some (r, s2) → s2 = s) ∧
    ∀ x, (stateless b f).init x = OptState.empty ⟨⟩
  | false, f, u, s, p => by
    refine ⟨?_, fun x => rfl⟩
    intro r s2 h
    have h2 : f u p = r ∧ s = s2 := by simpa using Option.some.inj h
    exact h2.2.symm
  | true, f, u, s, none => by
    refine ⟨?_, fun x => rfl⟩
    intro r s2 h
    have h2 : tree_map (fun l => f l none) u = r ∧ s = s2 := by simpa using Option.some.inj h
    exact h2.2.symm
  | true, f, u, s, some pp => by
    refine ⟨?_, fun x => rfl⟩
    intro r s2 h
    cases hm : tree_map2 (fun a b => f a (some b)) u pp with
    | none =>
      rw [show (stateless true f).update u s (some pp)
          = (tree_map2 (fun a b => f a (some b)) u pp).map (fun v => (v, s)) from rfl,
        hm] at h
      exact Option.noConfusion h
    | some t =>
      rw [show (stateless true f).update u s (some pp)
          = (tree_map2 (fun a b => f a (some b)) u pp).map (fun v => (v, s)) from rfl,
        hm] at h
      have h2 : t = r ∧ s = s2 := by simpa using Option.some.inj h
      exact h2.2.symm

/-- C7 witness: a concrete whole-tree stateless call echoes a concrete
non-empty state unchanged. -/
theorem stateless_state_echo_witness :
    (stateless false incrTree).update exTree (OptState.ofTree exParams) none
      = some (incrTree exTree none, OptState.ofTree exParams) ∧
    OptState.ofTree exParams = OptState.ofTree exParams :=
  ⟨rfl, (stateless_state_echo false incrTree exTree (OptState.ofTree exParams) none).1
    (incrTree exTree none) (OptState.ofTree exParams) rfl⟩

/-- C8: the update functions are mathematical functions of their arguments:
two calls with identical arguments return identical results for identity,
set_to_zero, and stateless (whose wrapped `f` is pure by construction in
this model). -/
theorem update_pure_calls (u1 u2 : Updates) (s1 s2 : OptState) (p1 p2 : Option Params)
    (hu : u1 = u2) (hs : s1 = s2) (hp : p1 = p2) :
    identity.update u1 s1 p1 = identity.update u2 s2 p2 ∧
    set_to_zero.update u1 s1 p1 = set_to_zero.update u2 s2 p2 ∧
    ∀ (b : Bool) (f : FType b),
      (stateless b f).update u1 s1 p1 = (stateless b f).update u2 s2 p2 := by
  subst hu
  subst hs
  subst hp
  exact ⟨rfl, rfl, fun _ _ => rfl⟩

/-- C8 witness: two identical concrete identity calls agree. -/
theorem update_pure_calls_witness :
    exTree = exTree ∧
    identity.update exTree (OptState.empty ⟨⟩) none
      = identity.update exTree (OptState.empty ⟨⟩) none :=
  ⟨rfl, (update_pure_calls exTree exTree (OptState.empty ⟨⟩) (OptState.empty ⟨⟩) none none
    rfl rfl rfl).1⟩

/-- C9: `EmptyState` carries no fields, so any two values of it, however
constructed, are equal. -/
theorem emptyState_all_equal (a b : EmptyState) : a = b := by
  cases a
  cases b
  rfl

/-- C10: set_to_zero's update result is the same for any two params values
(including `None`), and its first component depends only on the shape
skeleton of updates, never on the numeric values stored in the leaves. -/
theorem set_to_zero_independence (u u1 u2 : Updates) (s : OptState) (p1 p2 : Option Params)
    (hshape : treeShape u1 = treeShape u2) :
    set_to_zero.update u s p1 = set_to_zero.update u s p2 ∧
    (set_to_zero.update u1 s p1).map Prod.fst = (set_to_zero.update u2 s p1).map Prod.fst := by
  refine ⟨rfl, ?_⟩
  show some (tree_map zeros_like u1) = some (tree_map zeros_like u2)
  rw [tree_map_zeros_like_shape u1, tree_map_zeros_like_shape u2, hshape]

/-- C10 witness: two concrete trees with equal shapes but different leaf
values produce the same zeroed updates. -/
theorem set_to_zero_independence_witness :
    treeShape exTree = treeShape exParams ∧
    (set_to_zero.update exTree (OptState.empty ⟨⟩) none).map Prod.fst
      = (set_to_zero.update exParams (OptState.empty ⟨⟩) none).map Prod.fst :=
  ⟨rfl, (set_to_zero_independence exTree exTree exParams (OptState.empty ⟨⟩) none
    (some exParams) rfl).2⟩

end Optax
